import Mathlib

/-!
Verification development for the "Recomeçar" backend (src/main.py).

The Python module is shallowly embedded: module-level mutable state (the
Oracle session pool) becomes explicit state passing, HTTP exceptions become
an error type threaded through `Except`, and the behaviour of the Oracle
driver for one statement execution is an explicit environment parameter.
Python dictionaries are modelled as association lists in insertion order
(all dictionaries built by the code have pairwise distinct keys).
-/

/-- A database / JSON cell value. -/
inductive Value where
  | vNull
  | vInt (i : Int)
  | vStr (s : String)
deriving DecidableEq, Repr

/-- A Python dict with string keys, in insertion order. -/
abbrev RecMap := List (String × Value)

/-- Dict access `r[k]` (keys are pairwise distinct in every dict the code builds). -/
def lookupKey (r : RecMap) (k : String) : Option Value :=
  (r.find? (fun kv => kv.fst == k)).map Prod.snd

/-- `fastapi.HTTPException(status_code, detail)`. -/
structure HttpError where
  status : Nat
  detail : String
deriving DecidableEq, Repr

/-- A Python exception escaping an endpoint: either an `HTTPException`
(mapped by FastAPI to its own status) or any other exception (mapped by
FastAPI to a plain 500 response). -/
inductive PyErr where
  | http (e : HttpError)
  | raw (msg : String)
deriving DecidableEq, Repr

/-- Python `f"{e}"` on an exception: Starlette renders `HTTPException` as
`"status: detail"`; for other exceptions we carry the message directly. -/
def pyStr : PyErr → String
  | .http e => toString e.status ++ ": " ++ e.detail
  | .raw m => m

/-- `pat` occurs as a contiguous sublist of `s` (Python substring test `pat in s`). -/
def subOccurs (pat s : List Char) : Bool :=
  (List.range (s.length + 1)).any fun i => pat.isPrefixOf (s.drop i)

/-- Python `pat in s` on strings. -/
def containsSub (s pat : String) : Bool :=
  subOccurs pat.data s.data

/-- Python `s.upper()` (character-wise, as for the ASCII strings involved). -/
def pyUpper (s : String) : String := ⟨s.data.map Char.toUpper⟩

/-- Python `s.lower()` (character-wise, as for the ASCII strings involved). -/
def pyLower (s : String) : String := ⟨s.data.map Char.toLower⟩

/-! ## Connection pool manager (src/main.py lines 27-92)

The module-level `pool` global is modelled as `PoolSt`: `pool = some g`
means a live `oracledb.SessionPool` object identified by generation `g`;
`nextGen` numbers the next pool object that would be created.  Whether the
driver can actually reach the database is an environment boolean. -/

/-- The five environment variables (absent = `None`); `port` has default `"1521"`. -/
structure DbConfig where
  user : Option String
  password : Option String
  host : Option String
  port : String
  serviceName : Option String

/-- `DB_DSN = f"{DB_HOST}:{DB_PORT}/{DB_SERVICE_NAME}" if DB_HOST and DB_SERVICE_NAME else None` (line 44). -/
def DB_DSN (c : DbConfig) : Option String :=
  match c.host, c.serviceName with
  | some h, some s => some (h ++ ":" ++ c.port ++ "/" ++ s)
  | _, _ => none

/-- `all([DB_USER, DB_PASSWORD, DB_DSN])` (line 51). -/
def configComplete (c : DbConfig) : Bool :=
  c.user.isSome && c.password.isSome && (DB_DSN c).isSome

/-- State of the global `pool` variable. -/
structure PoolSt where
  pool : Option Nat
  nextGen : Nat
deriving DecidableEq, Repr

/-- `init_oracle_pool` (lines 49-62): with incomplete configuration it only
prints and returns, leaving the global untouched; otherwise it tries to
create a `SessionPool` (success modelled by `connectOk`), setting the global
to the new pool on success and to `None` on an `oracledb.Error`.  It never
raises. -/
def init_oracle_pool (cfg : DbConfig) (connectOk : Bool) (st : PoolSt) : PoolSt :=
  if configComplete cfg = false then st
  else if connectOk then { pool := some st.nextGen, nextGen := st.nextGen + 1 }
  else { st with pool := none }

/-- `startup_event` (lines 64-66) just calls `init_oracle_pool`. -/
def startup_event (cfg : DbConfig) (connectOk : Bool) (st : PoolSt) : PoolSt :=
  init_oracle_pool cfg connectOk st

/-- Detail string of the 503 raised when the pool cannot be (re)initialised (line 83). -/
def msg503pool : String :=
  "Serviço de banco de dados indisponível (pool não inicializado). Verifique as configurações e logs do servidor."

/-- `get_db_connection` (lines 76-92).  A connection is identified by the
generation of the pool it was acquired from.  `acquireErr = some e` models
`pool.acquire()` raising `oracledb.Error` with message `e`. -/
def get_db_connection (cfg : DbConfig) (connectOk : Bool) (acquireErr : Option String)
    (st : PoolSt) : Except HttpError Nat × PoolSt :=
  let st1 := if st.pool.isNone then init_oracle_pool cfg connectOk st else st
  match st1.pool with
  | none => (.error ⟨503, msg503pool⟩, st1)
  | some g =>
    match acquireErr with
    | none => (.ok g, st1)
    | some e => (.error ⟨503, "Erro ao conectar ao banco de dados: " ++ e⟩, st1)

/-! ## Query executor (src/main.py lines 95-153) -/

/-- The fixed connectivity-class Oracle error codes of line 135. -/
def connCodes : List Int := [24324, 1033, 1089, 3113, 3114, 12537, 12541]

/-- What the driver does for the one `cursor.execute` (plus fetch / out-bind
reads) of this invocation: a successful result set with column names and
rows plus the values filled into the `out_`-prefixed bind variables, an
`oracledb.DatabaseError` carrying a vendor code and message, or any other
exception. -/
inductive DbOutcome where
  | ok (cols : List String) (rws : List (List Value)) (outIds : RecMap)
  | dbErr (code : Int) (msg : String)
  | exn (msg : String)

/-- Environment of one `execute_query` invocation. -/
structure Env where
  connectOk : Bool
  acquireErr : Option String
  dbOutcome : DbOutcome
  reinitOk : Bool

/-- Return value of `execute_query`: `RETURNING` out-binds, `None`
(commit / DDL, or `fetch_one` with no row — kept apart as `noRow`), a single
record, or a list of records. -/
inductive QueryOut where
  | ids (m : RecMap)
  | nothing
  | one (r : RecMap)
  | noRow
  | many (rs : List RecMap)
deriving DecidableEq

/-- `dict(zip(columns, row))` with `columns = [col[0].lower() for col in cursor.description]`
(lines 123-124; `zip` truncates at the shorter list). -/
def toRec (cols : List String) (row : List Value) : RecMap :=
  List.zip (cols.map pyLower) row

/-- `"RETURNING" in query.upper() and params` (line 104). -/
def hasReturningClause (q : String) (ps : RecMap) : Bool :=
  containsSub (pyUpper q) "RETURNING" && !ps.isEmpty

/-- Result of one `execute_query` invocation, with the resource-tracking
facts needed for the scoped-release contract: the generation of the pool the
connection was acquired from, the generation of the pool object that
`pool.release(conn)` in the `finally` block actually went to (the *global*
`pool` at that moment, line 153), and whether that `finally` itself crashed
because the global was `None`. -/
structure ExecRes where
  ret : Except PyErr QueryOut
  st : PoolSt
  acquired : Option Nat
  releasedTo : Option Nat
  releaseCrashed : Bool

/-- The `finally` block (lines 149-153) for an invocation that did acquire a
connection from pool generation `g`: it calls `pool.release(conn)` on the
*current global* `pool`.  If the global is `None` (connectivity handler
discarded it and re-initialisation failed) this raises `AttributeError`,
which replaces whatever was propagating out of the `try`. -/
def finallyRelease (r : Except PyErr QueryOut) (st : PoolSt) (g : Nat) : ExecRes :=
  match st.pool with
  | none =>
    { ret := .error (.raw "AttributeError: NoneType object has no attribute release"),
      st := st, acquired := some g, releasedTo := none, releaseCrashed := true }
  | some g2 =>
    { ret := r, st := st, acquired := some g, releasedTo := some g2, releaseCrashed := false }

/-- `execute_query(query, params, fetch_one, commit, is_ddl)` (lines 96-153).
Control flow, in source order: acquire a connection (a failure there
propagates with no release — `conn` is still `None`); the `RETURNING` branch
returns the out-bind values; `is_ddl or commit` returns `None`; `fetch_one`
returns the first row as a lower-cased-column dict or `None`; otherwise all
rows are returned (the intended list comprehension of line 129 — see the
fetch-modes theorem for the syntax slip there).  An `oracledb.DatabaseError`
whose code is in `connCodes` makes the handler close and drop the global
pool and call `init_oracle_pool` again before raising HTTP 500 with the
Oracle message; any other exception raises HTTP 500 with a generic prefix. -/
def execute_query (cfg : DbConfig) (query : String) (params : RecMap)
    (fetch_one commit is_ddl : Bool) (env : Env) (st : PoolSt) : ExecRes :=
  match get_db_connection cfg env.connectOk env.acquireErr st with
  | (.error e, st1) =>
    { ret := .error (.http e), st := st1, acquired := none,
      releasedTo := none, releaseCrashed := false }
  | (.ok g, st1) =>
    match env.dbOutcome with
    | .dbErr code msg =>
      let st2 := if code ∈ connCodes
        then init_oracle_pool cfg env.reinitOk { st1 with pool := none }
        else st1
      finallyRelease (.error (.http ⟨500, "Erro no banco de dados Oracle: " ++ msg⟩)) st2 g
    | .exn msg =>
      finallyRelease (.error (.http ⟨500, "Erro interno do servidor: " ++ msg⟩)) st1 g
    | .ok cols rws outIds =>
      if hasReturningClause query params then
        finallyRelease (.ok (.ids outIds)) st1 g
      else if is_ddl || commit then
        finallyRelease (.ok .nothing) st1 g
      else if fetch_one then
        match rws with
        | [] => finallyRelease (.ok .noRow) st1 g
        | r :: _ => finallyRelease (.ok (.one (toRec cols r))) st1 g
      else
        finallyRelease (.ok (.many (rws.map (toRec cols)))) st1 g

/-! ## Entity repositories (src/main.py lines 232-392)

The three entities share one shape; stored rows are modelled at the level
`execute_query` delivers them: dictionaries from lower-cased column name to
value, one list per table.  The effect of executing the dynamically built
`UPDATE` statement with its bind dictionary is the per-field overwrite
`applyUpdate` below; the statement text itself is built exactly as in the
source and recorded in the result so that theorems can speak about it. -/

structure EntityDef where
  idField : String
  table : String
  updFields : List String
  notFoundMsg : String
  emptyMsg : String

/-- Person: routes of lines 235-293; update model `PessoaUpdate` (lines 167-172). -/
def pessoaEnt : EntityDef :=
  { idField := "id_pessoa", table := "PESSOAS",
    updFields := ["nome", "telefone", "endereco", "situacao", "necessidades"],
    notFoundMsg := "Pessoa não encontrada",
    emptyMsg := "Nenhum dado fornecido para atualização" }

/-- Shelter: routes of lines 296-343; update model `AbrigoUpdate` (lines 191-198). -/
def abrigoEnt : EntityDef :=
  { idField := "id_abrigo", table := "ABRIGOS",
    updFields := ["nome", "endereco", "capacidade", "ocupacao_atual", "responsavel",
                  "telefone_responsavel", "recursos_disponiveis"],
    notFoundMsg := "Abrigo não encontrado",
    emptyMsg := "Nenhum dado para atualização" }

/-- Donation: routes of lines 346-392; update model `DoacaoUpdate` (lines 218-225). -/
def doacaoEnt : EntityDef :=
  { idField := "id_doacao", table := "DOACOES",
    updFields := ["doador_nome", "doador_telefone", "tipo_doacao", "descricao",
                  "quantidade", "status", "id_abrigo_destino"],
    notFoundMsg := "Doação não encontrada",
    emptyMsg := "Nenhum dado para atualização" }

/-- The three entity kinds. -/
inductive Ent where
  | pessoa
  | abrigo
  | doacao
deriving DecidableEq

def entDef : Ent → EntityDef
  | .pessoa => pessoaEnt
  | .abrigo => abrigoEnt
  | .doacao => doacaoEnt

/-- `obter_pessoa` / `obter_abrigo` / `obter_doacao` (lines 262-268, 317-323,
367-373): single-row `SELECT ... WHERE <ID> = :<id>` over the table, raising
404 with the per-entity message when no row matches. -/
def obter (ent : EntityDef) (tbl : List RecMap) (i : Value) : Except HttpError RecMap :=
  match tbl.find? (fun r => lookupKey r ent.idField == some i) with
  | some r => .ok r
  | none => .error ⟨404, ent.notFoundMsg⟩

def obter_pessoa (tbl : List RecMap) (i : Value) : Except HttpError RecMap :=
  obter pessoaEnt tbl i

def obter_abrigo (tbl : List RecMap) (i : Value) : Except HttpError RecMap :=
  obter abrigoEnt tbl i

def obter_doacao (tbl : List RecMap) (i : Value) : Except HttpError RecMap :=
  obter doacaoEnt tbl i

/-- Effect of one `SET <K> = :<k>` item on one row: overwrite the existing
column `k` (validated payload keys always name existing columns). -/
def setField (r : RecMap) (k : String) (v : Value) : RecMap :=
  r.map fun kv => if kv.fst = k then (kv.fst, v) else kv

/-- Effect of the whole SET clause on one row, in payload order. -/
def setFields (r : RecMap) (upd : RecMap) : RecMap :=
  upd.foldl (fun acc kv => setField acc kv.fst kv.snd) r

/-- Effect of `UPDATE <T> SET ... WHERE <ID> = :<id>_param`: every row whose
identity column equals the bound id is overwritten field by field. -/
def applyUpdate (ent : EntityDef) (tbl : List RecMap) (i : Value) (upd : RecMap) : List RecMap :=
  tbl.map fun r => if lookupKey r ent.idField == some i then setFields r upd else r

/-- `[f"{key.upper()} = :{key}" for key in update_data.keys()]` (lines 279, 331, 381). -/
def setClauseList (upd : RecMap) : List String :=
  upd.map fun kv => pyUpper kv.fst ++ " = :" ++ kv.fst

/-- `", ".join(...)` of the SET items. -/
def set_clauses (upd : RecMap) : String :=
  String.intercalate ", " (setClauseList upd)

/-- `f"UPDATE {T} SET {set_clauses} WHERE {ID} = :{id}_param"` (lines 280, 332, 382). -/
def updateQueryStr (ent : EntityDef) (upd : RecMap) : String :=
  "UPDATE " ++ ent.table ++ " SET " ++ set_clauses upd ++ " WHERE "
    ++ pyUpper ent.idField ++ " = :" ++ ent.idField ++ "_param"

/-- `params = {**update_data, "<id>_param": id}` (lines 282, 333, 383). -/
def bindParams (ent : EntityDef) (i : Value) (upd : RecMap) : RecMap :=
  upd ++ [(ent.idField ++ "_param", i)]

/-- Outcome of an update endpoint: the HTTP response, the table afterwards,
and the UPDATE statement and bind dictionary actually sent to the executor
(`none` when the endpoint rejected the request before touching storage). -/
structure UpdateResult where
  resp : Except HttpError RecMap
  db : List RecMap
  sql : Option String
  binds : Option RecMap

/-- `atualizar_pessoa` / `atualizar_abrigo` / `atualizar_doacao` (lines
270-285, 325-335, 375-385): validate existence via the get route (propagating
its 404), reject an empty `dict(exclude_unset=True)` payload with 400, else
build the statement from the present fields, execute it with the id as an
extra bind, and return a fresh get. -/
def atualizar (ent : EntityDef) (tbl : List RecMap) (i : Value) (upd : RecMap) : UpdateResult :=
  match obter ent tbl i with
  | .error e => { resp := .error e, db := tbl, sql := none, binds := none }
  | .ok _ =>
    if upd.isEmpty then
      { resp := .error ⟨400, ent.emptyMsg⟩, db := tbl, sql := none, binds := none }
    else
      let q := updateQueryStr ent upd
      let tbl2 := applyUpdate ent tbl i upd
      { resp := obter ent tbl2 i, db := tbl2, sql := some q, binds := some (bindParams ent i upd) }

def atualizar_pessoa (tbl : List RecMap) (i : Value) (upd : RecMap) : UpdateResult :=
  atualizar pessoaEnt tbl i upd

def atualizar_abrigo (tbl : List RecMap) (i : Value) (upd : RecMap) : UpdateResult :=
  atualizar abrigoEnt tbl i upd

def atualizar_doacao (tbl : List RecMap) (i : Value) (upd : RecMap) : UpdateResult :=
  atualizar doacaoEnt tbl i upd

/-! ## Person creation (src/main.py lines 235-253) -/

/-- `PessoaCreate` (lines 156-165). -/
structure PessoaCreate where
  nome : String
  cpf : String
  telefone : Option String
  endereco : Option String
  situacao : String
  necessidades : Option String

/-- Optional text as a bind/database value. -/
def optVal : Option String → Value
  | none => .vNull
  | some s => .vStr s

/-- The INSERT of lines 237-241 (whitespace normalised). -/
def pessoaInsertQuery : String :=
  "INSERT INTO PESSOAS (NOME, CPF, TELEFONE, ENDERECO, SITUACAO, NECESSIDADES) VALUES (:nome, :cpf, :telefone, :endereco, :situacao, :necessidades) RETURNING ID_PESSOA INTO :out_id_pessoa"

/-- `params = pessoa.dict(); params["out_id_pessoa"] = None` (lines 242-243). -/
def pessoaCreateParams (p : PessoaCreate) : RecMap :=
  [("nome", .vStr p.nome), ("cpf", .vStr p.cpf), ("telefone", optVal p.telefone),
   ("endereco", optVal p.endereco), ("situacao", .vStr p.situacao),
   ("necessidades", optVal p.necessidades), ("out_id_pessoa", .vNull)]

/-- `cadastrar_pessoa` (lines 235-253): run the INSERT with `commit=True`,
read the generated id from the out-bind dict, and return the fresh get of
that id (modelled by `getById`).  Any `HTTPException` from the `try` block
whose detail contains `UNIQUE_CONSTRAINT_VIOLATED` (upper-cased) or
`ORA-00001` is translated to 409 naming the CPF; other `HTTPException`s are
re-raised unchanged; non-HTTP exceptions are not caught. -/
def cadastrar_pessoa (cfg : DbConfig) (p : PessoaCreate) (env : Env) (st : PoolSt)
    (getById : Value → Except HttpError RecMap) : Except PyErr RecMap × PoolSt :=
  let r := execute_query cfg pessoaInsertQuery (pessoaCreateParams p) false true false env st
  let attempt : Except PyErr RecMap :=
    match r.ret with
    | .error e => .error e
    | .ok (.ids m) =>
      match lookupKey m "out_id_pessoa" with
      | none => .error (.raw "KeyError: out_id_pessoa")
      | some v =>
        match getById v with
        | .error e => .error (.http e)
        | .ok rec => .ok rec
    | .ok _ => .error (.raw "TypeError: unexpected executor result")
  let final : Except PyErr RecMap :=
    match attempt with
    | .error (.http e) =>
      if containsSub (pyUpper e.detail) "UNIQUE_CONSTRAINT_VIOLATED"
          || containsSub e.detail "ORA-00001" then
        .error (.http ⟨409, "CPF " ++ p.cpf ++ " já cadastrado."⟩)
      else
        .error (.http e)
    | other => other
  (final, r.st)

/-! ## Table rows, list endpoints and statistics (src/main.py lines 256-260,
312-315, 362-365, 394-423)

For the fixed `SELECT`/aggregate queries of these endpoints the tables are
modelled at schema level (typed rows, timestamps as integers); name columns
compare with the usual string order, standing in for the database collation. -/

/-- A row of PESSOAS with the columns of the SELECT at line 258. -/
structure PessoaRow where
  id_pessoa : Int
  nome : String
  cpf : String
  telefone : Option String
  endereco : Option String
  situacao : String
  necessidades : Option String
  data_cadastro : Int
deriving DecidableEq, Repr

/-- A row of ABRIGOS with the columns of the SELECT at line 314. -/
structure AbrigoRow where
  id_abrigo : Int
  nome : String
  endereco : String
  capacidade : Int
  ocupacao_atual : Int
  responsavel : Option String
  telefone_responsavel : Option String
  recursos_disponiveis : Option String
  data_criacao : Int
deriving DecidableEq, Repr

/-- A row of DOACOES with the columns of the SELECT at line 364. -/
structure DoacaoRow where
  id_doacao : Int
  doador_nome : Option String
  doador_telefone : Option String
  tipo_doacao : String
  descricao : String
  quantidade : Option String
  status : String
  data_doacao : Int
  id_abrigo_destino : Option Int
deriving DecidableEq, Repr

/-- The three tables. -/
structure OracleDB where
  pessoas : List PessoaRow
  abrigos : List AbrigoRow
  doacoes : List DoacaoRow

def optIntVal : Option Int → Value
  | none => .vNull
  | some i => .vInt i

/-- The dict `execute_query` produces for a PESSOAS row (column order of line 258). -/
def pessoaRowToRec (p : PessoaRow) : RecMap :=
  [("id_pessoa", .vInt p.id_pessoa), ("nome", .vStr p.nome), ("cpf", .vStr p.cpf),
   ("telefone", optVal p.telefone), ("endereco", optVal p.endereco),
   ("situacao", .vStr p.situacao), ("necessidades", optVal p.necessidades),
   ("data_cadastro", .vInt p.data_cadastro)]

/-- The dict `execute_query` produces for an ABRIGOS row (column order of line 314). -/
def abrigoRowToRec (a : AbrigoRow) : RecMap :=
  [("id_abrigo", .vInt a.id_abrigo), ("nome", .vStr a.nome), ("endereco", .vStr a.endereco),
   ("capacidade", .vInt a.capacidade), ("ocupacao_atual", .vInt a.ocupacao_atual),
   ("responsavel", optVal a.responsavel),
   ("telefone_responsavel", optVal a.telefone_responsavel),
   ("recursos_disponiveis", optVal a.recursos_disponiveis),
   ("data_criacao", .vInt a.data_criacao)]

/-- The dict `execute_query` produces for a DOACOES row (column order of line 364). -/
def doacaoRowToRec (d : DoacaoRow) : RecMap :=
  [("id_doacao", .vInt d.id_doacao), ("doador_nome", optVal d.doador_nome),
   ("doador_telefone", optVal d.doador_telefone), ("tipo_doacao", .vStr d.tipo_doacao),
   ("descricao", .vStr d.descricao), ("quantidade", optVal d.quantidade),
   ("status", .vStr d.status), ("data_doacao", .vInt d.data_doacao),
   ("id_abrigo_destino", optIntVal d.id_abrigo_destino)]

/-- `ORDER BY NOME` on PESSOAS. -/
def pessoaNomeLe (a b : PessoaRow) : Prop := a.nome ≤ b.nome

instance : DecidableRel pessoaNomeLe :=
  fun a b => inferInstanceAs (Decidable (a.nome ≤ b.nome))

instance : IsTotal PessoaRow pessoaNomeLe := ⟨fun a b => le_total a.nome b.nome⟩

instance : IsTrans PessoaRow pessoaNomeLe := ⟨fun _ _ _ h1 h2 => le_trans h1 h2⟩

/-- `ORDER BY NOME` on ABRIGOS. -/
def abrigoNomeLe (a b : AbrigoRow) : Prop := a.nome ≤ b.nome

instance : DecidableRel abrigoNomeLe :=
  fun a b => inferInstanceAs (Decidable (a.nome ≤ b.nome))

instance : IsTotal AbrigoRow abrigoNomeLe := ⟨fun a b => le_total a.nome b.nome⟩

instance : IsTrans AbrigoRow abrigoNomeLe := ⟨fun _ _ _ h1 h2 => le_trans h1 h2⟩

/-- `ORDER BY DATA_DOACAO DESC` on DOACOES (later timestamps first). -/
def doacaoDataDesc (a b : DoacaoRow) : Prop := b.data_doacao ≤ a.data_doacao

instance : DecidableRel doacaoDataDesc :=
  fun a b => inferInstanceAs (Decidable (b.data_doacao ≤ a.data_doacao))

instance : IsTotal DoacaoRow doacaoDataDesc := ⟨fun a b => le_total b.data_doacao a.data_doacao⟩

instance : IsTrans DoacaoRow doacaoDataDesc := ⟨fun _ _ _ h1 h2 => le_trans h2 h1⟩

/-- `listar_pessoas` (lines 256-260): `SELECT ... FROM PESSOAS ORDER BY NOME`,
every row, in name order. -/
def listar_pessoas (db : OracleDB) : List RecMap :=
  (List.insertionSort pessoaNomeLe db.pessoas).map pessoaRowToRec

/-- `listar_abrigos` (lines 312-315): `SELECT ... FROM ABRIGOS ORDER BY NOME`. -/
def listar_abrigos (db : OracleDB) : List RecMap :=
  (List.insertionSort abrigoNomeLe db.abrigos).map abrigoRowToRec

/-- `listar_doacoes` (lines 362-365): `SELECT ... FROM DOACOES ORDER BY DATA_DOACAO DESC`. -/
def listar_doacoes (db : OracleDB) : List RecMap :=
  (List.insertionSort doacaoDataDesc db.doacoes).map doacaoRowToRec

/-! ## Statistics (src/main.py lines 394-423) -/

/-- `SELECT COUNT(*) AS total FROM PESSOAS`. -/
def q_pessoas_total (db : OracleDB) : RecMap :=
  [("total", .vInt db.pessoas.length)]

/-- `SELECT COUNT(*) AS total FROM PESSOAS WHERE SITUACAO = <desabrigado>`. -/
def q_pessoas_desabrigadas (db : OracleDB) : RecMap :=
  [("total", .vInt (db.pessoas.filter (fun p => p.situacao == "desabrigado")).length)]

/-- `SELECT COUNT(*) AS total FROM ABRIGOS`. -/
def q_abrigos_total (db : OracleDB) : RecMap :=
  [("total", .vInt db.abrigos.length)]

/-- `SELECT SUM(CAPACIDADE - OCUPACAO_ATUAL) AS total FROM ABRIGOS`:
SQL `SUM` over zero rows is NULL. -/
def q_vagas_disponiveis (db : OracleDB) : RecMap :=
  [("total", if db.abrigos.isEmpty then Value.vNull
             else .vInt ((db.abrigos.map (fun a => a.capacidade - a.ocupacao_atual)).sum))]

/-- `SELECT COUNT(*) AS total FROM DOACOES`. -/
def q_doacoes_total (db : OracleDB) : RecMap :=
  [("total", .vInt db.doacoes.length)]

/-- `SELECT COUNT(*) AS total FROM DOACOES WHERE STATUS = <pendente>`. -/
def q_doacoes_pendentes (db : OracleDB) : RecMap :=
  [("total", .vInt (db.doacoes.filter (fun d => d.status == "pendente")).length)]

/-- `execute_query(q, fetch_one=True)['total']` (lines 405-407, 410-411): a
propagated exception stays an exception; a `None` record raises `TypeError`;
a record without the key raises `KeyError`. -/
def getTotal : Except PyErr (Option RecMap) → Except PyErr Value
  | .error e => .error e
  | .ok none => .error (.raw "TypeError: NoneType object is not subscriptable")
  | .ok (some m) =>
    match lookupKey m "total" with
    | some v => .ok v
    | none => .error (.raw "KeyError: total")

/-- Lines 408-409: `r['total'] if r and r['total'] is not None else 0` — the
guard turns a missing record or a NULL sum into 0 (a missing key still
raises `KeyError` inside the condition). -/
def vagasVal : Except PyErr (Option RecMap) → Except PyErr Value
  | .error e => .error e
  | .ok none => .ok (.vInt 0)
  | .ok (some m) =>
    match lookupKey m "total" with
    | none => .error (.raw "KeyError: total")
    | some .vNull => .ok (.vInt 0)
    | some v => .ok v

/-- The `try` block of `obter_estatisticas` (lines 404-411): the six
subscripted reads are evaluated one after the other, the first exception of
any kind aborting the block; on success the six values make up the response
dict of lines 416-423. -/
def statsTry (r1 r2 r3 r4 r5 r6 : Except PyErr (Option RecMap)) :
    Except PyErr RecMap :=
  match getTotal r1 with
  | .error e => .error e
  | .ok t1 =>
    match getTotal r2 with
    | .error e => .error e
    | .ok t2 =>
      match getTotal r3 with
      | .error e => .error e
      | .ok t3 =>
        match vagasVal r4 with
        | .error e => .error e
        | .ok t4 =>
          match getTotal r5 with
          | .error e => .error e
          | .ok t5 =>
            match getTotal r6 with
            | .error e => .error e
            | .ok t6 =>
              .ok [("total_pessoas", t1), ("pessoas_desabrigadas", t2), ("total_abrigos", t3),
                   ("vagas_disponiveis", t4), ("total_doacoes", t5), ("doacoes_pendentes", t6)]

/-- The `except Exception` handler of lines 412-414 around `statsTry`. -/
def obter_estatisticas (r1 r2 r3 r4 r5 r6 : Except PyErr (Option RecMap)) :
    Except PyErr RecMap :=
  match statsTry r1 r2 r3 r4 r5 r6 with
  | .error e => .error (.http ⟨500, "Erro ao buscar estatísticas do banco: " ++ pyStr e⟩)
  | .ok m => .ok m

/-- The statistics endpoint against a healthy database: all six single-row
reads deliver their aggregate record. -/
def obter_estatisticas_db (db : OracleDB) : Except PyErr RecMap :=
  obter_estatisticas (.ok (some (q_pessoas_total db))) (.ok (some (q_pessoas_desabrigadas db)))
    (.ok (some (q_abrigos_total db))) (.ok (some (q_vagas_disponiveis db)))
    (.ok (some (q_doacoes_total db))) (.ok (some (q_doacoes_pendentes db)))

/-- The list-endpoint SELECT of line 258, used as a concrete non-RETURNING query. -/
def listarPessoasQuery : String :=
  "SELECT ID_PESSOA, NOME, CPF, TELEFONE, ENDERECO, SITUACAO, NECESSIDADES, DATA_CADASTRO FROM PESSOAS ORDER BY NOME"

/-! ## Helper lemmas -/

theorem isPrefixOf_append_self (p c : List Char) : p.isPrefixOf (p ++ c) = true := by
  induction p with
  | nil => simp [List.isPrefixOf]
  | cons h t ih => simp [List.isPrefixOf, ih]

theorem subOccurs_append_left (pat a s : List Char) (h : subOccurs pat s = true) :
    subOccurs pat (a ++ s) = true := by
  unfold subOccurs at h ⊢
  rw [List.any_eq_true] at h ⊢
  obtain ⟨i, hi, hp⟩ := h
  rw [List.mem_range] at hi
  refine ⟨a.length + i, ?_, ?_⟩
  · rw [List.mem_range, List.length_append]
    omega
  · rw [List.drop_append]
    exact hp

theorem subOccurs_self_append (pat c : List Char) : subOccurs pat (pat ++ c) = true := by
  unfold subOccurs
  rw [List.any_eq_true]
  refine ⟨0, by rw [List.mem_range]; omega, ?_⟩
  simp [isPrefixOf_append_self pat c]

theorem containsSub_append_left (a s pat : String) (h : containsSub s pat = true) :
    containsSub (a ++ s) pat = true := by
  unfold containsSub at h ⊢
  rw [String.data_append]
  exact subOccurs_append_left _ _ _ h

theorem containsSub_middle (a b c : String) : containsSub (a ++ b ++ c) b = true := by
  unfold containsSub
  rw [String.data_append, String.data_append, List.append_assoc]
  exact subOccurs_append_left _ _ _ (subOccurs_self_append b.data c.data)

/-- A complete configuration, for concrete evaluations. -/
def cfgC : DbConfig :=
  { user := some "user", password := some "pw", host := some "dbhost",
    port := "1521", serviceName := some "svc" }

/-- Environment of an invocation during which the database connection drops:
the statement fails with ORA-03113 (a connectivity-class code); whether the
pool re-initialisation attempted by the handler succeeds is `reinitOk`. -/
def envDown (reinitOk : Bool) : Env :=
  { connectOk := true, acquireErr := none,
    dbOutcome := .dbErr 3113 "ORA-03113: end-of-file on communication channel",
    reinitOk := reinitOk }

/-! ## Claims -/

/-- C6: with missing database configuration, startup and pool
initialisation do not throw (they are total and leave the pool absent), and
every connection acquisition from a pool-less state performs exactly one
re-initialisation attempt (which changes nothing) and then fails with the
503 "service unavailable" outcome. -/
theorem missing_config_first_use_503 (cfg : DbConfig) (co : Bool) (aq : Option String)
    (hinc : configComplete cfg = false) :
    (∀ st : PoolSt, init_oracle_pool cfg co st = st)
    ∧ (∀ n : Nat, startup_event cfg co ⟨none, n⟩ = ⟨none, n⟩)
    ∧ (∀ st : PoolSt, st.pool = none →
        get_db_connection cfg co aq st = (.error ⟨503, msg503pool⟩, init_oracle_pool cfg co st)) := by
  refine ⟨?_, ?_, ?_⟩
  · intro st
    simp [init_oracle_pool, hinc]
  · intro n
    simp [startup_event, init_oracle_pool, hinc]
  · intro st hst
    simp [get_db_connection, init_oracle_pool, hinc, hst]

/-- Witness for C6 at the all-absent configuration. -/
theorem missing_config_first_use_503_witness :
    configComplete ⟨none, none, none, "1521", none⟩ = false
    ∧ get_db_connection ⟨none, none, none, "1521", none⟩ true none ⟨none, 0⟩
        = (.error ⟨503, msg503pool⟩, ⟨none, 0⟩) := by
  refine ⟨by decide, ?_⟩
  have h := (missing_config_first_use_503 ⟨none, none, none, "1521", none⟩ true none
    (by decide)).2.2 ⟨none, 0⟩ rfl
  have h1 := (missing_config_first_use_503 ⟨none, none, none, "1521", none⟩ true none
    (by decide)).1 ⟨none, 0⟩
  rw [h1] at h
  exact h

/-- C1 (failing evaluation): on a connectivity-class database error the
`finally` block releases via the *global* `pool`, which the handler has just
discarded.  If the re-initialisation fails the global is `None` and the
release call itself crashes with `AttributeError` — the acquired connection
is never released; if the re-initialisation succeeds, the release goes to
the freshly created pool object, not the one the connection was acquired
from. -/
theorem connectivity_error_skips_release :
    (execute_query cfgC listarPessoasQuery [] false false false (envDown false) ⟨some 0, 1⟩).acquired = some 0
    ∧ (execute_query cfgC listarPessoasQuery [] false false false (envDown false) ⟨some 0, 1⟩).releasedTo = none
    ∧ (execute_query cfgC listarPessoasQuery [] false false false (envDown false) ⟨some 0, 1⟩).releaseCrashed = true
    ∧ (execute_query cfgC listarPessoasQuery [] false false false (envDown false) ⟨some 0, 1⟩).ret
        = .error (.raw "AttributeError: NoneType object has no attribute release")
    ∧ (execute_query cfgC listarPessoasQuery [] false false false (envDown true) ⟨some 0, 1⟩).acquired = some 0
    ∧ (execute_query cfgC listarPessoasQuery [] false false false (envDown true) ⟨some 0, 1⟩).releasedTo = some 1 := by
  refine ⟨rfl, rfl, rfl, rfl, rfl, rfl⟩

/-- C2 (counterexample): a connectivity-class error (ORA-03113) is reported
to the caller with HTTP status 500 — not the 503 "service unavailable" the
claim states — even though the pool is indeed discarded and re-initialised
(generation 0 is dropped, generation 1 is created). -/
theorem connectivity_error_reported_500_not_503 :
    (execute_query cfgC listarPessoasQuery [] false false false (envDown true) ⟨some 0, 1⟩).ret
      = .error (.http ⟨500, "Erro no banco de dados Oracle: ORA-03113: end-of-file on communication channel"⟩)
    ∧ (execute_query cfgC listarPessoasQuery [] false false false (envDown true) ⟨some 0, 1⟩).st
      = ⟨some 1, 2⟩ := by
  refine ⟨rfl, rfl⟩

/-- C2 (amended): for every database error whose code is in the fixed
connectivity set, the executor discards the current pool and re-initialises
it (a fresh generation, the old one gone), but reports the failure as an
HTTP 500 internal database error carrying the Oracle message — not as a
503 — and the in-flight connection is handed to the *new* pool by the
`finally` block. -/
theorem connectivity_error_pool_reset_and_500 (cfg : DbConfig) (q : String) (ps : RecMap)
    (f c d co : Bool) (st : PoolSt) (g : Nat) (code : Int) (msg : String)
    (hc : configComplete cfg = true) (hp : st.pool = some g)
    (hcode : code ∈ connCodes) (hg : st.nextGen ≠ g) :
    (execute_query cfg q ps f c d
        { connectOk := co, acquireErr := none, dbOutcome := .dbErr code msg, reinitOk := true } st).ret
      = .error (.http ⟨500, "Erro no banco de dados Oracle: " ++ msg⟩)
    ∧ (execute_query cfg q ps f c d
        { connectOk := co, acquireErr := none, dbOutcome := .dbErr code msg, reinitOk := true } st).st
      = ⟨some st.nextGen, st.nextGen + 1⟩
    ∧ (execute_query cfg q ps f c d
        { connectOk := co, acquireErr := none, dbOutcome := .dbErr code msg, reinitOk := true } st).st.pool
      ≠ some g
    ∧ (execute_query cfg q ps f c d
        { connectOk := co, acquireErr := none, dbOutcome := .dbErr code msg, reinitOk := true } st).acquired
      = some g
    ∧ (execute_query cfg q ps f c d
        { connectOk := co, acquireErr := none, dbOutcome := .dbErr code msg, reinitOk := true } st).releasedTo
      = some st.nextGen := by
  have hconn : get_db_connection cfg co none st = (.ok g, st) := by
    simp [get_db_connection, hp]
  have hres : execute_query cfg q ps f c d
      { connectOk := co, acquireErr := none, dbOutcome := .dbErr code msg, reinitOk := true } st
      = finallyRelease (.error (.http ⟨500, "Erro no banco de dados Oracle: " ++ msg⟩))
          ⟨some st.nextGen, st.nextGen + 1⟩ g := by
    simp only [execute_query, hconn]
    simp [hcode, init_oracle_pool, hc]
  rw [hres]
  refine ⟨rfl, rfl, ?_, rfl, rfl⟩
  intro h
  exact hg (Option.some.inj h)

/-- Witness for the amended C2 at a concrete connectivity failure. -/
theorem connectivity_error_pool_reset_and_500_witness :
    configComplete cfgC = true
    ∧ (3113 : Int) ∈ connCodes
    ∧ (1 : Nat) ≠ 0
    ∧ (execute_query cfgC listarPessoasQuery [] false false false
        { connectOk := true, acquireErr := none, dbOutcome := .dbErr 3113 "boom", reinitOk := true }
        ⟨some 0, 1⟩).ret
      = .error (.http ⟨500, "Erro no banco de dados Oracle: boom"⟩) := by
  refine ⟨by decide, by decide, by decide, ?_⟩
  exact (connectivity_error_pool_reset_and_500 cfgC listarPessoasQuery [] false false false true
    ⟨some 0, 1⟩ 0 3113 "boom" (by decide) rfl (by decide) (by decide)).1

/-- C5 (intended behaviour of the fetch branches; the multi-row expression
at line 129 is a syntax slip, see the results notes): in single-row mode the
executor returns the first row as a mapping from lower-cased column name to
value, or the no-row outcome when the result set is empty; in multi-row mode
it returns every row so mapped, in result-set order, the empty list being a
successful outcome. -/
theorem execute_query_fetch_modes (cols : List String) (r : List Value)
    (rws : List (List Value)) (ids : RecMap) (g n : Nat) :
    (execute_query cfgC listarPessoasQuery [] true false false
        { connectOk := true, acquireErr := none, dbOutcome := .ok cols [] ids, reinitOk := true }
        ⟨some g, n⟩).ret = .ok .noRow
    ∧ (execute_query cfgC listarPessoasQuery [] true false false
        { connectOk := true, acquireErr := none, dbOutcome := .ok cols (r :: rws) ids, reinitOk := true }
        ⟨some g, n⟩).ret = .ok (.one (toRec cols r))
    ∧ (execute_query cfgC listarPessoasQuery [] false false false
        { connectOk := true, acquireErr := none, dbOutcome := .ok cols rws ids, reinitOk := true }
        ⟨some g, n⟩).ret = .ok (.many (rws.map (toRec cols)))
    ∧ toRec cols r = List.zip (cols.map pyLower) r := by
  refine ⟨rfl, rfl, rfl, rfl⟩

/-- C3: when the INSERT behind the create-person route fails with an Oracle
unique-constraint violation (an `ORA-00001` message), the caller receives a
distinguishable 409 conflict outcome whose message names the conflicting CPF
value — not the generic 500 storage failure. -/
theorem duplicate_cpf_conflict_409 (cfg : DbConfig) (p : PessoaCreate) (st : PoolSt) (g : Nat)
    (getById : Value → Except HttpError RecMap) (code : Int) (msg : String) (co ro : Bool)
    (hp : st.pool = some g) (hcode : code ∉ connCodes)
    (hmsg : containsSub msg "ORA-00001" = true) :
    (cadastrar_pessoa cfg p
        { connectOk := co, acquireErr := none, dbOutcome := .dbErr code msg, reinitOk := ro }
        st getById).1
      = .error (.http ⟨409, "CPF " ++ p.cpf ++ " já cadastrado."⟩)
    ∧ containsSub ("CPF " ++ p.cpf ++ " já cadastrado.") p.cpf = true := by
  constructor
  · have hconn : get_db_connection cfg co none st = (.ok g, st) := by
      simp [get_db_connection, hp]
    have hexec : (execute_query cfg pessoaInsertQuery (pessoaCreateParams p) false true false
        { connectOk := co, acquireErr := none, dbOutcome := .dbErr code msg, reinitOk := ro }
        st).ret
        = .error (.http ⟨500, "Erro no banco de dados Oracle: " ++ msg⟩) := by
      simp only [execute_query, hconn]
      simp [hcode, finallyRelease, hp]
    have hdetail : containsSub ("Erro no banco de dados Oracle: " ++ msg) "ORA-00001" = true :=
      containsSub_append_left _ _ _ hmsg
    simp only [cadastrar_pessoa, hexec]
    simp [hdetail]
  · exact containsSub_middle "CPF " p.cpf " já cadastrado."

/-- Witness for C3 at a concrete duplicate-CPF insertion. -/
theorem duplicate_cpf_conflict_409_witness :
    (1 : Int) ∉ connCodes
    ∧ containsSub "ORA-00001: unique constraint (RECOMECAR.UN_PESSOAS_CPF) violated" "ORA-00001" = true
    ∧ (cadastrar_pessoa cfgC ⟨"Ana", "12345678900", none, none, "desabrigado", none⟩
        { connectOk := true, acquireErr := none,
          dbOutcome := .dbErr 1 "ORA-00001: unique constraint (RECOMECAR.UN_PESSOAS_CPF) violated",
          reinitOk := true }
        ⟨some 0, 1⟩ (fun _ => .error ⟨404, "Pessoa não encontrada"⟩)).1
      = .error (.http ⟨409, "CPF 12345678900 já cadastrado."⟩) := by
  refine ⟨by decide, by decide, ?_⟩
  exact (duplicate_cpf_conflict_409 cfgC ⟨"Ana", "12345678900", none, none, "desabrigado", none⟩
    ⟨some 0, 1⟩ 0 (fun _ => .error ⟨404, "Pessoa não encontrada"⟩) 1
    "ORA-00001: unique constraint (RECOMECAR.UN_PESSOAS_CPF) violated" true true
    rfl (by decide) (by decide)).1

/-- C9: whatever the six reads inside the statistics endpoint do — including
raising the 503 "service unavailable" exception of an uninitialised pool —
the endpoint either returns a snapshot or reports HTTP 500; a 503 outcome is
never observable from this endpoint. -/
theorem stats_never_503 (r1 r2 r3 r4 r5 r6 : Except PyErr (Option RecMap)) :
    ((∃ m, obter_estatisticas r1 r2 r3 r4 r5 r6 = .ok m)
      ∨ (∃ d, obter_estatisticas r1 r2 r3 r4 r5 r6 = .error (.http ⟨500, d⟩)))
    ∧ obter_estatisticas (.error (.http ⟨503, msg503pool⟩)) r2 r3 r4 r5 r6
      = .error (.http ⟨500, "Erro ao buscar estatísticas do banco: "
          ++ pyStr (.http ⟨503, msg503pool⟩)⟩) := by
  constructor
  · cases h : statsTry r1 r2 r3 r4 r5 r6 with
    | error e =>
      right
      refine ⟨"Erro ao buscar estatísticas do banco: " ++ pyStr e, ?_⟩
      unfold obter_estatisticas
      rw [h]
    | ok m =>
      left
      refine ⟨m, ?_⟩
      unfold obter_estatisticas
      rw [h]
  · rfl

/-- C7: the statistics computation performs the six aggregate reads and
returns all six in one mapping (with a NULL capacity sum — no shelters —
reported as zero); on the empty dataset all six values are zero; and if any
of the six reads fails, the whole computation aborts with the internal
storage error outcome — no partial snapshot exists. -/
theorem estatisticas_spec (db : OracleDB) (r1 r2 r3 r4 r5 r6 : Except PyErr (Option RecMap)) :
    obter_estatisticas_db db
      = .ok [("total_pessoas", .vInt db.pessoas.length),
             ("pessoas_desabrigadas",
               .vInt (db.pessoas.filter (fun p => p.situacao == "desabrigado")).length),
             ("total_abrigos", .vInt db.abrigos.length),
             ("vagas_disponiveis",
               .vInt (if db.abrigos.isEmpty then 0
                      else (db.abrigos.map (fun a => a.capacidade - a.ocupacao_atual)).sum)),
             ("total_doacoes", .vInt db.doacoes.length),
             ("doacoes_pendentes",
               .vInt (db.doacoes.filter (fun d => d.status == "pendente")).length)]
    ∧ obter_estatisticas_db ⟨[], [], []⟩
      = .ok [("total_pessoas", .vInt 0), ("pessoas_desabrigadas", .vInt 0),
             ("total_abrigos", .vInt 0), ("vagas_disponiveis", .vInt 0),
             ("total_doacoes", .vInt 0), ("doacoes_pendentes", .vInt 0)]
    ∧ (∀ e, getTotal r1 = .error e → obter_estatisticas r1 r2 r3 r4 r5 r6
        = .error (.http ⟨500, "Erro ao buscar estatísticas do banco: " ++ pyStr e⟩))
    ∧ (∀ v1 e, getTotal r1 = .ok v1 → getTotal r2 = .error e →
        obter_estatisticas r1 r2 r3 r4 r5 r6
        = .error (.http ⟨500, "Erro ao buscar estatísticas do banco: " ++ pyStr e⟩))
    ∧ (∀ v1 v2 e, getTotal r1 = .ok v1 → getTotal r2 = .ok v2 → getTotal r3 = .error e →
        obter_estatisticas r1 r2 r3 r4 r5 r6
        = .error (.http ⟨500, "Erro ao buscar estatísticas do banco: " ++ pyStr e⟩))
    ∧ (∀ v1 v2 v3 e, getTotal r1 = .ok v1 → getTotal r2 = .ok v2 → getTotal r3 = .ok v3 →
        vagasVal r4 = .error e →
        obter_estatisticas r1 r2 r3 r4 r5 r6
        = .error (.http ⟨500, "Erro ao buscar estatísticas do banco: " ++ pyStr e⟩))
    ∧ (∀ v1 v2 v3 v4 e, getTotal r1 = .ok v1 → getTotal r2 = .ok v2 → getTotal r3 = .ok v3 →
        vagasVal r4 = .ok v4 → getTotal r5 = .error e →
        obter_estatisticas r1 r2 r3 r4 r5 r6
        = .error (.http ⟨500, "Erro ao buscar estatísticas do banco: " ++ pyStr e⟩))
    ∧ (∀ v1 v2 v3 v4 v5 e, getTotal r1 = .ok v1 → getTotal r2 = .ok v2 → getTotal r3 = .ok v3 →
        vagasVal r4 = .ok v4 → getTotal r5 = .ok v5 → getTotal r6 = .error e →
        obter_estatisticas r1 r2 r3 r4 r5 r6
        = .error (.http ⟨500, "Erro ao buscar estatísticas do banco: " ++ pyStr e⟩)) := by
  refine ⟨?_, by rfl, ?_, ?_, ?_, ?_, ?_, ?_⟩
  · cases habr : db.abrigos.isEmpty <;>
      simp [obter_estatisticas_db, obter_estatisticas, statsTry, getTotal, vagasVal, lookupKey,
        q_pessoas_total, q_pessoas_desabrigadas, q_abrigos_total, q_vagas_disponiveis,
        q_doacoes_total, q_doacoes_pendentes, habr]
  · intro e h1
    simp [obter_estatisticas, statsTry, h1]
  · intro v1 e h1 h2
    simp [obter_estatisticas, statsTry, h1, h2]
  · intro v1 v2 e h1 h2 h3
    simp [obter_estatisticas, statsTry, h1, h2, h3]
  · intro v1 v2 v3 e h1 h2 h3 h4
    simp [obter_estatisticas, statsTry, h1, h2, h3, h4]
  · intro v1 v2 v3 v4 e h1 h2 h3 h4 h5
    simp [obter_estatisticas, statsTry, h1, h2, h3, h4, h5]
  · intro v1 v2 v3 v4 v5 e h1 h2 h3 h4 h5 h6
    simp [obter_estatisticas, statsTry, h1, h2, h3, h4, h5, h6]

/-- Witness for C7 at a one-row dataset and a concrete failing read. -/
theorem estatisticas_spec_witness :
    obter_estatisticas_db
      ⟨[⟨1, "Ana", "111", none, none, "desabrigado", none, 10⟩],
       [⟨1, "Central", "Rua A", 50, 10, none, none, none, 20⟩],
       [⟨1, none, none, "alimento", "arroz", none, "pendente", 30, some 1⟩]⟩
      = .ok [("total_pessoas", .vInt 1), ("pessoas_desabrigadas", .vInt 1),
             ("total_abrigos", .vInt 1), ("vagas_disponiveis", .vInt 40),
             ("total_doacoes", .vInt 1), ("doacoes_pendentes", .vInt 1)]
    ∧ getTotal (.error (.http ⟨503, msg503pool⟩)) = .error (.http ⟨503, msg503pool⟩)
    ∧ obter_estatisticas (.error (.http ⟨503, msg503pool⟩)) (.ok (some [("total", .vInt 0)]))
        (.ok (some [("total", .vInt 0)])) (.ok (some [("total", .vInt 0)]))
        (.ok (some [("total", .vInt 0)])) (.ok (some [("total", .vInt 0)]))
      = .error (.http ⟨500, "Erro ao buscar estatísticas do banco: "
          ++ pyStr (.http ⟨503, msg503pool⟩)⟩) := by
  refine ⟨?_, rfl, ?_⟩
  · have h := (estatisticas_spec
      ⟨[⟨1, "Ana", "111", none, none, "desabrigado", none, 10⟩],
       [⟨1, "Central", "Rua A", 50, 10, none, none, none, 20⟩],
       [⟨1, none, none, "alimento", "arroz", none, "pendente", 30, some 1⟩]⟩
      (.ok none) (.ok none) (.ok none) (.ok none) (.ok none) (.ok none)).1
    simpa using h
  · exact (estatisticas_spec ⟨[], [], []⟩ (.error (.http ⟨503, msg503pool⟩))
      (.ok (some [("total", .vInt 0)])) (.ok (some [("total", .vInt 0)]))
      (.ok (some [("total", .vInt 0)])) (.ok (some [("total", .vInt 0)]))
      (.ok (some [("total", .vInt 0)]))).2.2.1 _ rfl

/-- C8: each list endpoint returns all records of its table, ordered by the
documented key — name for persons and shelters, donation timestamp
descending for donations. -/
theorem listas_ordenadas (db : OracleDB) :
    (∃ l, List.Perm l db.pessoas ∧ List.Sorted pessoaNomeLe l
        ∧ listar_pessoas db = l.map pessoaRowToRec)
    ∧ (∃ l, List.Perm l db.abrigos ∧ List.Sorted abrigoNomeLe l
        ∧ listar_abrigos db = l.map abrigoRowToRec)
    ∧ (∃ l, List.Perm l db.doacoes ∧ List.Sorted doacaoDataDesc l
        ∧ listar_doacoes db = l.map doacaoRowToRec) := by
  refine ⟨⟨_, List.perm_insertionSort _ _, List.sorted_insertionSort _ _, rfl⟩,
          ⟨_, List.perm_insertionSort _ _, List.sorted_insertionSort _ _, rfl⟩,
          ⟨_, List.perm_insertionSort _ _, List.sorted_insertionSort _ _, rfl⟩⟩


/-! ## Association-list lemmas for the partial-update semantics -/

theorem lookupKey_cons (kv : String × Value) (rest : RecMap) (k : String) :
    lookupKey (kv :: rest) k = if kv.fst == k then some kv.snd else lookupKey rest k := by
  by_cases h : (kv.fst == k) = true
  · simp [lookupKey, List.find?_cons_of_pos _ h, h]
  · have h' : (kv.fst == k) = false := by simpa using h
    have h2 : ¬ ((fun x : String × Value => x.fst == k) kv = true) := by simp [h']
    simp [lookupKey, List.find?_cons_of_neg _ h2, h']

theorem setField_cons (kv : String × Value) (rest : RecMap) (k : String) (v : Value) :
    setField (kv :: rest) k v
      = (if kv.fst = k then (kv.fst, v) else kv) :: setField rest k v := by
  simp [setField]

theorem lookupKey_setField_ne : ∀ (r : RecMap) (k k' : String) (v : Value), k' ≠ k →
    lookupKey (setField r k v) k' = lookupKey r k' := by
  intro r k k' v h
  induction r with
  | nil => rfl
  | cons kv rest ih =>
    rw [setField_cons, lookupKey_cons, lookupKey_cons]
    by_cases hk : kv.fst = k
    · have hne : (kv.fst == k') = false := by
        rw [hk]
        exact beq_eq_false_iff_ne.mpr fun hh => h hh.symm
      simp only [if_pos hk]
      simp [hne, ih]
    · simp only [if_neg hk]
      by_cases hk' : (kv.fst == k') = true
      · simp [hk']
      · have hne : (kv.fst == k') = false := by simpa using hk'
        simp [hne, ih]

theorem setField_keys : ∀ (r : RecMap) (k : String) (v : Value),
    (setField r k v).map Prod.fst = r.map Prod.fst := by
  intro r k v
  induction r with
  | nil => rfl
  | cons kv rest ih =>
    rw [setField_cons]
    by_cases hk : kv.fst = k <;> simp [hk, ih]

theorem lookupKey_setField_self : ∀ (r : RecMap) (k : String) (v : Value),
    k ∈ r.map Prod.fst → lookupKey (setField r k v) k = some v := by
  intro r k v h
  induction r with
  | nil => simp at h
  | cons kv rest ih =>
    rw [setField_cons, lookupKey_cons]
    by_cases hk : kv.fst = k
    · have : ((if kv.fst = k then (kv.fst, v) else kv).fst == k) = true := by
        simp [if_pos hk, hk]
      simp [if_pos hk, hk]
    · have hmem : k ∈ rest.map Prod.fst := by
        simp only [List.map_cons, List.mem_cons] at h
        rcases h with h1 | h2
        · exact absurd h1.symm hk
        · exact h2
      have hne : (kv.fst == k) = false := beq_eq_false_iff_ne.mpr hk
      simp [if_neg hk, hne, ih hmem]

theorem setFields_keys : ∀ (upd : RecMap) (r : RecMap),
    (setFields r upd).map Prod.fst = r.map Prod.fst := by
  intro upd
  induction upd with
  | nil => intro r; rfl
  | cons kv rest ih =>
    intro r
    simp only [setFields, List.foldl_cons]
    have h2 := ih (setField r kv.fst kv.snd)
    simp only [setFields] at h2
    rw [h2, setField_keys]

theorem lookupKey_setFields_not_mem : ∀ (upd : RecMap) (r : RecMap) (k : String),
    k ∉ upd.map Prod.fst → lookupKey (setFields r upd) k = lookupKey r k := by
  intro upd
  induction upd with
  | nil => intro r k _; rfl
  | cons kv rest ih =>
    intro r k h
    have hne : k ≠ kv.fst := fun hh => h (by simp [hh])
    have hrest : k ∉ rest.map Prod.fst := fun hh => h (by simp [hh])
    simp only [setFields, List.foldl_cons]
    have h2 := ih (setField r kv.fst kv.snd) k hrest
    simp only [setFields] at h2
    rw [h2, lookupKey_setField_ne _ _ _ _ hne]

theorem lookupKey_setFields_mem : ∀ (upd : RecMap) (r : RecMap) (k : String) (v : Value),
    (k, v) ∈ upd → (upd.map Prod.fst).Nodup → k ∈ r.map Prod.fst →
    lookupKey (setFields r upd) k = some v := by
  intro upd
  induction upd with
  | nil => intro r k v hmem _ _; simp at hmem
  | cons kv rest ih =>
    intro r k v hmem hnd hkey
    simp only [List.map_cons, List.nodup_cons] at hnd
    rcases List.mem_cons.mp hmem with hh | hh
    · subst hh
      have hknotin : k ∉ rest.map Prod.fst := by simpa using hnd.1
      simp only [setFields, List.foldl_cons]
      have hstep := lookupKey_setFields_not_mem rest (setField r k v) k hknotin
      simp only [setFields] at hstep
      show lookupKey (List.foldl (fun acc kv => setField acc kv.fst kv.snd) (setField r k v) rest) k
        = some v
      rw [hstep]
      exact lookupKey_setField_self r k v hkey
    · simp only [setFields, List.foldl_cons]
      have := ih (setField r kv.fst kv.snd) k v hh hnd.2
        (by rw [setField_keys]; exact hkey)
      simp only [setFields] at this
      exact this

theorem applyUpdate_find? (ent : EntityDef) (i : Value) (upd : RecMap)
    (hid : ent.idField ∉ upd.map Prod.fst) :
    ∀ tbl : List RecMap,
    (applyUpdate ent tbl i upd).find? (fun r => lookupKey r ent.idField == some i)
      = (tbl.find? (fun r => lookupKey r ent.idField == some i)).map
          (fun r => if lookupKey r ent.idField == some i then setFields r upd else r) := by
  intro tbl
  induction tbl with
  | nil => rfl
  | cons r rest ih =>
    by_cases hp : (lookupKey r ent.idField == some i) = true
    · simp only [applyUpdate, List.map_cons, if_pos hp, List.find?_cons]
      rw [lookupKey_setFields_not_mem upd r ent.idField hid]
      have hp' : lookupKey r ent.idField = some i := by simpa using hp
      simp [hp']
    · have hpf : (lookupKey r ent.idField == some i) = false := by simpa using hp
      simp only [applyUpdate, List.map_cons, if_neg hp, List.find?_cons]
      simp only [hpf]
      simpa [applyUpdate] using ih

/-- No entity allows its identity column in the update payload. -/
theorem entDef_id_not_updatable (e : Ent) : (entDef e).idField ∉ (entDef e).updFields := by
  cases e <;> decide

/-- C4: for each of the three entities, updating a nonexistent identity
yields the 404 outcome with no statement sent and no table change; an empty
payload yields the 400 outcome before any statement is sent; otherwise the
endpoint sends exactly the UPDATE statement built from the present fields
with the id as a bind parameter, the updated row carries the payload values
on the present fields and the old values on every omitted field, every row
with a different identity is untouched, and the response is the fresh get of
the id on the updated table. -/
theorem atualizar_spec (e : Ent) (tbl : List RecMap) (i : Value) (upd : RecMap)
    (hkeys : ∀ k ∈ upd.map Prod.fst, k ∈ (entDef e).updFields)
    (hnodup : (upd.map Prod.fst).Nodup)
    (hwf : ∀ r ∈ tbl, ∀ k ∈ (entDef e).updFields, k ∈ r.map Prod.fst) :
    (∀ err, obter (entDef e) tbl i = .error err →
        atualizar (entDef e) tbl i upd
          = { resp := .error err, db := tbl, sql := none, binds := none }
        ∧ err = ⟨404, (entDef e).notFoundMsg⟩)
    ∧ (∀ r0, obter (entDef e) tbl i = .ok r0 → upd = [] →
        atualizar (entDef e) tbl i upd
          = { resp := .error ⟨400, (entDef e).emptyMsg⟩, db := tbl, sql := none, binds := none })
    ∧ (∀ r0, obter (entDef e) tbl i = .ok r0 → upd ≠ [] →
        atualizar (entDef e) tbl i upd
          = { resp := .ok (setFields r0 upd),
              db := applyUpdate (entDef e) tbl i upd,
              sql := some (updateQueryStr (entDef e) upd),
              binds := some (bindParams (entDef e) i upd) }
        ∧ obter (entDef e) (applyUpdate (entDef e) tbl i upd) i = .ok (setFields r0 upd)
        ∧ (∀ k v, (k, v) ∈ upd → lookupKey (setFields r0 upd) k = some v)
        ∧ (∀ k, k ∉ upd.map Prod.fst → lookupKey (setFields r0 upd) k = lookupKey r0 k)
        ∧ (∀ j (hj : j < tbl.length) (hj2 : j < (applyUpdate (entDef e) tbl i upd).length),
            (applyUpdate (entDef e) tbl i upd).get ⟨j, hj2⟩
              = if lookupKey (tbl.get ⟨j, hj⟩) (entDef e).idField == some i
                then setFields (tbl.get ⟨j, hj⟩) upd else tbl.get ⟨j, hj⟩)) := by
  have hid : (entDef e).idField ∉ upd.map Prod.fst :=
    fun hmem => entDef_id_not_updatable e (hkeys _ hmem)
  refine ⟨?_, ?_, ?_⟩
  · intro err herr
    constructor
    · unfold atualizar
      rw [herr]
    · unfold obter at herr
      cases hf : tbl.find? (fun r => lookupKey r (entDef e).idField == some i) with
      | some r =>
        rw [hf] at herr
        exact absurd herr (by simp)
      | none =>
        rw [hf] at herr
        injection herr with h
        exact h.symm
  · intro r0 hobt hnil
    subst hnil
    unfold atualizar
    rw [hobt]
    rfl
  · intro r0 hobt hne
    have hf : tbl.find? (fun r => lookupKey r (entDef e).idField == some i) = some r0 := by
      unfold obter at hobt
      cases hf : tbl.find? (fun r => lookupKey r (entDef e).idField == some i) with
      | some r =>
        rw [hf] at hobt
        injection hobt with h
        rw [h]
      | none =>
        rw [hf] at hobt
        exact absurd hobt (by simp)
    have hpr0 := List.find?_some hf
    have hpr0' : lookupKey r0 (entDef e).idField = some i := by simpa using hpr0
    have hmem0 : r0 ∈ tbl := List.mem_of_find?_eq_some hf
    have hempty : upd.isEmpty = false := by
      cases upd with
      | nil => exact absurd rfl hne
      | cons a t => rfl
    have hobt2 : obter (entDef e) (applyUpdate (entDef e) tbl i upd) i
        = .ok (setFields r0 upd) := by
      unfold obter
      rw [applyUpdate_find? (entDef e) i upd hid tbl, hf]
      simp [hpr0']
    refine ⟨?_, hobt2, ?_, ?_, ?_⟩
    · unfold atualizar
      rw [hobt, if_neg (by simp [hempty])]
      simp [hobt2]
    · intro k v hkv
      exact lookupKey_setFields_mem upd r0 k v hkv hnodup
        (hwf r0 hmem0 k (hkeys k (List.mem_map_of_mem Prod.fst hkv)))
    · intro k hk
      exact lookupKey_setFields_not_mem upd r0 k hk
    · intro j hj hj2
      simp [applyUpdate, List.get_eq_getElem, List.getElem_map]

/-- Witness for C4: updating only the name of a one-row person table changes
exactly the name. -/
theorem atualizar_spec_witness :
    (atualizar pessoaEnt
        [[("id_pessoa", Value.vInt 1), ("nome", Value.vStr "Ana"), ("cpf", Value.vStr "111"),
          ("telefone", Value.vNull), ("endereco", Value.vNull),
          ("situacao", Value.vStr "desabrigado"), ("necessidades", Value.vNull),
          ("data_cadastro", Value.vInt 0)]]
        (Value.vInt 1) [("nome", Value.vStr "Bia")]).resp
      = .ok [("id_pessoa", Value.vInt 1), ("nome", Value.vStr "Bia"), ("cpf", Value.vStr "111"),
             ("telefone", Value.vNull), ("endereco", Value.vNull),
             ("situacao", Value.vStr "desabrigado"), ("necessidades", Value.vNull),
             ("data_cadastro", Value.vInt 0)] := by
  have h := ((atualizar_spec .pessoa
      [[("id_pessoa", Value.vInt 1), ("nome", Value.vStr "Ana"), ("cpf", Value.vStr "111"),
        ("telefone", Value.vNull), ("endereco", Value.vNull),
        ("situacao", Value.vStr "desabrigado"), ("necessidades", Value.vNull),
        ("data_cadastro", Value.vInt 0)]]
      (Value.vInt 1) [("nome", Value.vStr "Bia")]
      (by decide) (by decide) (by decide)).2.2
      [("id_pessoa", Value.vInt 1), ("nome", Value.vStr "Ana"), ("cpf", Value.vStr "111"),
       ("telefone", Value.vNull), ("endereco", Value.vNull),
       ("situacao", Value.vStr "desabrigado"), ("necessidades", Value.vNull),
       ("data_cadastro", Value.vInt 0)]
      rfl (by decide)).1
  rw [show entDef Ent.pessoa = pessoaEnt from rfl] at h
  rw [h]
  rfl

/-- C10: the column names interpolated into the dynamically built UPDATE
statement come exclusively from the fixed field set of the entity's
partial-update model; the statement text is a function of the present *keys*
only (no payload value and not the identity appears in it — they travel in
the bind dictionary, which carries exactly the payload values plus the id
under the `_param` bind name); and the endpoint sends exactly this statement
with exactly these binds. -/
theorem update_sql_parameterization (e : Ent) (i : Value) (upd upd2 : RecMap)
    (hkeys : ∀ k ∈ upd.map Prod.fst, k ∈ (entDef e).updFields) :
    (∀ c ∈ setClauseList upd, ∃ k, k ∈ (entDef e).updFields ∧ c = pyUpper k ++ " = :" ++ k)
    ∧ (upd.map Prod.fst = upd2.map Prod.fst →
        updateQueryStr (entDef e) upd = updateQueryStr (entDef e) upd2)
    ∧ bindParams (entDef e) i upd = upd ++ [((entDef e).idField ++ "_param", i)]
    ∧ (∀ tbl r0, obter (entDef e) tbl i = .ok r0 → upd ≠ [] →
        (atualizar (entDef e) tbl i upd).sql = some (updateQueryStr (entDef e) upd)
        ∧ (atualizar (entDef e) tbl i upd).binds = some (bindParams (entDef e) i upd)) := by
  refine ⟨?_, ?_, rfl, ?_⟩
  · intro c hc
    rcases List.mem_map.mp hc with ⟨kv, hkv, hfc⟩
    exact ⟨kv.fst, hkeys _ (List.mem_map_of_mem Prod.fst hkv), hfc.symm⟩
  · intro hkeq
    have h1 : ∀ u : RecMap, setClauseList u
        = (u.map Prod.fst).map (fun k => pyUpper k ++ " = :" ++ k) := by
      intro u
      simp [setClauseList, List.map_map, Function.comp]
    unfold updateQueryStr set_clauses
    rw [h1, h1, hkeq]
  · intro tbl r0 hobt hne
    have hempty : upd.isEmpty = false := by
      cases upd with
      | nil => exact absurd rfl hne
      | cons a t => rfl
    unfold atualizar
    rw [hobt, if_neg (by simp [hempty])]
    exact ⟨rfl, rfl⟩

/-- Witness for C10: the statement text for a name-only update is the fixed
parameterized string, independent of the bound value. -/
theorem update_sql_parameterization_witness :
    updateQueryStr pessoaEnt [("nome", Value.vStr "Bia")]
      = updateQueryStr pessoaEnt [("nome", Value.vStr "qualquer outro valor")]
    ∧ updateQueryStr pessoaEnt [("nome", Value.vStr "Bia")]
      = "UPDATE PESSOAS SET NOME = :nome WHERE ID_PESSOA = :id_pessoa_param"
    ∧ bindParams pessoaEnt (Value.vInt 1) [("nome", Value.vStr "Bia")]
      = [("nome", Value.vStr "Bia"), ("id_pessoa_param", Value.vInt 1)] := by
  refine ⟨?_, by rfl, by rfl⟩
  have h := (update_sql_parameterization .pessoa (Value.vInt 1)
    [("nome", Value.vStr "Bia")] [("nome", Value.vStr "qualquer outro valor")]
    (by decide)).2.1 rfl
  rw [show entDef Ent.pessoa = pessoaEnt from rfl] at h
  exact h
